import Mathlib

/-!
Shallow embedding of src/segment.py from the data-science-template repository.

The file models the customer-segmentation pipeline module: the prefect tasks
reduce_dimension, get_3d_projection, get_best_k_cluster, get_clusters_model,
predict, insert_clusters_to_df and plot_clusters, the LocalResult cache
configuration TASK_OUTPUT, and the flow wiring in segment().

Numeric dataframe entries are modelled as integers: no claim of interest
depends on fractional values, and the source handles the integral inputs used
in the witnesses and counterexamples identically. Library routines that
live outside the repository (sklearn PCA and clustering, yellowbrick elbow
detection) are either parameters of the embedded task, constrained only by
their documented contracts, or executable models whose doc comments say so.
-/

deriving instance DecidableEq for Except

namespace Segment

/-- A dataframe row: the numeric values of one record. -/
abbrev Row := List ℤ

/-- A pandas DataFrame: ordered column names and ordered rows. -/
structure DataFrame where
  columns : List String
  rows : List Row
deriving DecidableEq

/-- Python-level errors the pipeline code can surface, together with the error
names of the spec taxonomy (unsupportedAlgorithm, invalidParameter,
noElbowFound); the embedded code itself never produces the latter three. -/
inductive PyError where
  | nameError (name : String)
  | typeError (name : String)
  | valueError (msg : String)
  | attributeError (attr : String)
  | keyError (key : String)
  | unsupportedAlgorithm
  | invalidParameter
  | noElbowFound
deriving DecidableEq

/-- The three sklearn clustering classes imported by segment.py line 11. -/
inductive Algorithm where
  | kmeans
  | agglomerative
  | spectral
deriving DecidableEq

/-- The Python class name each clustering algorithm is bound to. -/
def className : Algorithm → String
  | .kmeans => "KMeans"
  | .agglomerative => "AgglomerativeClustering"
  | .spectral => "SpectralClustering"

/-- Result of evaluating an identifier: one of the three clustering
constructors, or some other value bound in scope. -/
inductive EvalResult where
  | clusterCls (a : Algorithm)
  | otherValue (name : String)
deriving DecidableEq

/-- The globals and locals tiers of the name scope at the two eval call sites
of segment.py: the module globals (imports, constants, task functions)
together with the local variables already bound before each eval line (lines
71 and 94). The builtins tier that eval resolves after these follows below. -/
def moduleBoundNames : List String :=
  ["Tuple", "plt", "np", "pd", "to_absolute_path", "DictConfig", "Flow",
   "task", "LocalResult", "PandasSerializer", "AgglomerativeClustering",
   "KMeans", "SpectralClustering", "PCA", "KElbowVisualizer", "wandb",
   "log_data", "artifact_task", "bentoml", "OUTPUT_DIR", "OUTPUT_FILE",
   "TASK_OUTPUT", "reduce_dimension", "get_3d_projection", "create_3d_plot",
   "get_best_k_cluster", "get_clusters_model", "save_model", "predict",
   "insert_clusters_to_df", "plot_clusters", "segment",
   "pca_df", "cluster_config", "image_path", "fig", "ax", "algorithm", "k"]

/-- The builtins tier of the eval scope: every name the default builtins
namespace of CPython resolves after globals and locals miss. The list is the
union of the builtin names across the CPython 3 versions the repository could
run on; a name of the union absent from an older runtime fails there even
earlier, with NameError, and no theorem of this file relies on such a name. -/
def builtinNames : List String :=
  ["abs", "aiter", "all", "anext", "any", "ascii", "bin", "bool",
   "breakpoint", "bytearray", "bytes", "callable", "chr", "classmethod",
   "compile", "complex", "copyright", "credits", "delattr", "dict", "dir",
   "divmod", "enumerate", "eval", "exec", "exit", "filter", "float",
   "format", "frozenset", "getattr", "globals", "hasattr", "hash", "help",
   "hex", "id", "input", "int", "isinstance", "issubclass", "iter", "len",
   "license", "list", "locals", "map", "max", "memoryview", "min", "next",
   "object", "oct", "open", "ord", "pow", "print", "property", "quit",
   "range", "repr", "reversed", "round", "set", "setattr", "slice",
   "sorted", "staticmethod", "str", "sum", "super", "tuple", "type",
   "vars", "zip",
   "True", "False", "None", "Ellipsis", "NotImplemented",
   "__builtins__", "__build_class__", "__debug__", "__doc__", "__import__",
   "__loader__", "__name__", "__package__", "__spec__",
   "ArithmeticError", "AssertionError", "AttributeError", "BaseException",
   "BaseExceptionGroup", "BlockingIOError", "BrokenPipeError",
   "BufferError", "BytesWarning", "ChildProcessError",
   "ConnectionAbortedError", "ConnectionError", "ConnectionRefusedError",
   "ConnectionResetError", "DeprecationWarning", "EOFError",
   "EncodingWarning", "EnvironmentError", "Exception", "ExceptionGroup",
   "FileExistsError", "FileNotFoundError", "FloatingPointError",
   "FutureWarning", "GeneratorExit", "IOError", "ImportError",
   "ImportWarning", "IndentationError", "IndexError", "InterruptedError",
   "IsADirectoryError", "KeyError", "KeyboardInterrupt", "LookupError",
   "MemoryError", "ModuleNotFoundError", "NameError",
   "NotADirectoryError", "NotImplementedError", "OSError",
   "OverflowError", "PendingDeprecationWarning", "PermissionError",
   "ProcessLookupError", "RecursionError", "ReferenceError",
   "ResourceWarning", "RuntimeError", "RuntimeWarning",
   "StopAsyncIteration", "StopIteration", "SyntaxError", "SyntaxWarning",
   "SystemError", "SystemExit", "TabError", "TimeoutError", "TypeError",
   "UnboundLocalError", "UnicodeDecodeError", "UnicodeEncodeError",
   "UnicodeError", "UnicodeTranslateError", "UnicodeWarning",
   "UserWarning", "ValueError", "Warning", "ZeroDivisionError"]

/-- The full name scope of the two eval call sites: locals, then module
globals, then the builtins namespace. -/
def scopeNames : List String := moduleBoundNames ++ builtinNames

/-- Python eval of an identifier string, as used on lines 71 and 94 of
segment.py: name lookup through locals, globals and builtins, a NameError for
a name bound in none of them. The source also accepts non-identifier
expressions (arbitrary code evaluation); those either fail on some unbound
subterm or evaluate to yet more values outside the three clustering
constructors, so restricting the model to identifier strings only narrows,
never widens, what the lookup accepts. -/
def evalIdent (s : String) : Except PyError EvalResult :=
  if s = "KMeans" then .ok (.clusterCls .kmeans)
  else if s = "AgglomerativeClustering" then .ok (.clusterCls .agglomerative)
  else if s = "SpectralClustering" then .ok (.clusterCls .spectral)
  else if s ∈ scopeNames then .ok (.otherValue s)
  else .error (.nameError s)

/-- Squared Euclidean distance between a row and a center; sklearn KMeans
assigns rows by Euclidean distance, and the squared form has the same argmin. -/
def sqDist (r c : Row) : ℤ := (List.zipWith (fun x y => (x - y) * (x - y)) r c).sum

/-- Index of the first minimum of a list (the numpy argmin tie-break). -/
def argminIdx : List ℤ → Nat
  | [] => 0
  | [_] => 0
  | a :: b :: t =>
    if (b :: t).getD (argminIdx (b :: t)) 0 < a then argminIdx (b :: t) + 1 else 0

/-- Index of the fitted center nearest to a row. -/
def nearestCenterIdx (centers : List Row) (r : Row) : Nat :=
  argminIdx (centers.map (fun c => sqDist r c))

/-- The index li points at a center of minimal distance to the row r. -/
def isNearest (centers : List Row) (r : Row) (li : Nat) : Prop :=
  li < centers.length ∧
  ∀ j, j < centers.length → sqDist r (centers.getD li []) ≤ sqDist r (centers.getD j [])

/-- A fitted sklearn clustering model: the algorithm, its n_clusters
parameter, and the fitted centers (cluster_centers_, which only the KMeans
estimator has; the other two expose neither centers nor predict). -/
structure ClusterModel where
  alg : Algorithm
  nClusters : Nat
  centers : List Row
deriving DecidableEq

/-- Constructing and fitting the chosen estimator with n_clusters set to k, as
the library validates it: sklearn rejects k below 1 and k above the row count
with ValueError. The numeric outcome of the KMeans optimisation is external to
the repository, so it is a parameter kfit of the embedding. -/
def fitCluster (kfit : DataFrame → Nat → List Row) (a : Algorithm)
    (df : DataFrame) (k : Int) : Except PyError ClusterModel :=
  if k < 1 then .error (.valueError "n_clusters")
  else if (df.rows.length : Int) < k then .error (.valueError "n_samples")
  else
    match a with
    | .kmeans => .ok ⟨.kmeans, k.toNat, kfit df k.toNat⟩
    | .agglomerative => .ok ⟨.agglomerative, k.toNat, []⟩
    | .spectral => .ok ⟨.spectral, k.toNat, []⟩

/-- The bound non-clustering names whose call with only the n_clusters
keyword succeeds: the dict constructor collects the keyword into a mapping,
and the prefect task decorator factory and the artifact_task wrapper around
it collect keyword-only calls into a deferred decorator (that is how line 29
applies artifact_task with a result keyword). For these the failure comes at
the subsequent fit attribute, which none of the produced objects has. Every
other value bound in the scope rejects the keyword call itself with
TypeError: the remaining module globals and builtins are classes and
functions without an n_clusters parameter, exception classes, or
non-callable objects. -/
def kwargCollectors : List String := ["dict", "task", "artifact_task"]

/-- segment.py lines 90-97: model is eval(algorithm)(n_clusters=k), then the
task returns model.fit(pca_df), which is the fitted model itself. A bound
value outside the three clustering classes never yields a fitted model: for
the kwargCollectors names the call succeeds and the fit attribute access
raises AttributeError, and every other such value rejects the call with a
TypeError (PCA, for example, accepts no n_clusters keyword). -/
def get_clusters_model (kfit : DataFrame → Nat → List Row) (pca_df : DataFrame)
    (algorithm : String) (k : Int) : Except PyError ClusterModel :=
  match evalIdent algorithm with
  | .error e => .error e
  | .ok (.otherValue s) =>
      if s ∈ kwargCollectors then .error (.attributeError "fit")
      else .error (.typeError s)
  | .ok (.clusterCls a) => fitCluster kfit a pca_df k

/-- segment.py lines 105-107: return model.predict(pca_df). KMeans.predict
assigns each row to its nearest fitted center; AgglomerativeClustering and
SpectralClustering have no predict attribute, so the attribute access raises
AttributeError. -/
def predict (model : ClusterModel) (pca_df : DataFrame) : Except PyError (List Nat) :=
  match model.alg with
  | .kmeans => .ok (pca_df.rows.map (nearestCenterIdx model.centers))
  | .agglomerative => .error (.attributeError "predict")
  | .spectral => .error (.attributeError "predict")

/-- segment.py lines 63-87: model is eval(algorithm)(), elbow is
KElbowVisualizer(model, metric) fitted on pca_df, and the task returns
elbow.elbow_value_ unchanged. The score curve and knee search live in
yellowbrick, outside the repository, so the whole elbow computation is a
parameter elbowFit; its result is an Option because yellowbrick reports a
missing knee as None. A bound non-clustering value never reaches a returned
elbow value: its no-argument call or the library type check on the produced
object fails, in a way that depends on the name; the embedding records that
name-dependent failure as a type error, and the only fact the theorems use
about this branch is that it is an error distinct from the spec-taxonomy
names. -/
def get_best_k_cluster (elbowFit : DataFrame → Option Nat) (pca_df : DataFrame)
    (algorithm : String) : Except PyError (Option Nat) :=
  match evalIdent algorithm with
  | .error e => .error e
  | .ok (.otherValue s) => .error (.typeError s)
  | .ok (.clusterCls _) => .ok (elbowFit pca_df)

/-- Absolute value, written as an executable conditional. -/
def intAbs (x : ℤ) : ℤ := if x < 0 then -x else x

/-- Twice the area spanned by the chord from p to q and the point pt,
proportional to the distance of pt from the line through p and q. -/
def chordGap (p q pt : Nat × ℤ) : ℤ :=
  intAbs ((q.2 - p.2) * ((pt.1 : ℤ) - (p.1 : ℤ)) - ((q.1 : ℤ) - (p.1 : ℤ)) * (pt.2 - p.2))

/-- Index of the first maximum of a list. -/
def argmaxIdx (l : List ℤ) : Nat := argminIdx (l.map (fun x => -x))

/-- Modelled from the spec: the knee detection of the elbow library, which is
not part of the repository. The knee is the curve point at maximum distance
from the chord through the first and last curve points, and no elbow (none) is
reported when no point leaves the chord, as on a monotonic curve with no
inflection within tolerance. -/
def locateElbowSpec (curve : List (Nat × ℤ)) : Option Nat :=
  match curve with
  | [] => none
  | p :: rest =>
    match rest.getLast? with
    | none => none
    | some q =>
      if ((p :: rest).map (chordGap p q)).getD (argmaxIdx ((p :: rest).map (chordGap p q))) 0 ≤ 0
      then none
      else some (((p :: rest).getD (argmaxIdx ((p :: rest).map (chordGap p q))) p).1)

/-- segment.py lines 29-34: pca is PCA(n_components) and the task returns
pd.DataFrame(pca.fit_transform(df), columns). sklearn validates that
n_components is at most min(n_samples, n_features) and raises ValueError
otherwise; pandas raises ValueError when the column list length disagrees with
the array width, which the PCA contract fixes at n_components. The projection
itself is external to the repository and is a parameter pcaT. -/
def reduce_dimension (pcaT : Nat → List Row → List Row) (df : DataFrame)
    (nComponents : Nat) (columns : List String) : Except PyError DataFrame :=
  if nComponents ≤ min df.rows.length df.columns.length then
    if columns.length = nComponents then .ok ⟨columns, pcaT nComponents df.rows⟩
    else .error (.valueError "Shape of passed values")
  else .error (.valueError "n_components")

/-- Pandas column selection: the values of the named column, a KeyError when
the name is absent. -/
def dfGetColumn (df : DataFrame) (name : String) : Except PyError (List ℤ) :=
  if name ∈ df.columns then
    .ok (df.rows.map (fun r => r.getD (df.columns.indexOf name) 0))
  else .error (.keyError name)

/-- segment.py lines 37-40: build a dict of the columns named col1, col2 and
col3 of the reduced frame; the first missing name raises KeyError. -/
def get_3d_projection (pca_df : DataFrame) : Except PyError (List ℤ × List ℤ × List ℤ) :=
  match dfGetColumn pca_df "col1" with
  | .error e => .error e
  | .ok x =>
    match dfGetColumn pca_df "col2" with
    | .error e => .error e
    | .ok y =>
      match dfGetColumn pca_df "col3" with
      | .error e => .error e
      | .ok z => .ok (x, y, z)

/-- Pandas column assignment: replaces the column when the name exists,
otherwise appends it as the last column. -/
def dfSetColumn (df : DataFrame) (name : String) (vals : List ℤ) : DataFrame :=
  if name ∈ df.columns then
    ⟨df.columns, (df.rows.zip vals).map (fun rv => rv.1.set (df.columns.indexOf name) rv.2)⟩
  else
    ⟨df.columns ++ [name], (df.rows.zip vals).map (fun rv => rv.1 ++ [rv.2])⟩

/-- segment.py lines 110-114: the final merge df.assign(clusters=clusters),
which returns a copy of df extended with the clusters column. -/
def insert_clusters_to_df (df : DataFrame) (clusters : List ℤ) : DataFrame :=
  dfSetColumn df "clusters" clusters

/-- segment.py lines 117-139, the data effect only: line 121 assigns the
clusters column into pca_df itself, a pandas setitem that mutates the reduced
frame passed in (the value produced by reduce_dimension) in place; the
embedding returns the mutated frame. The plotting and logging side effects
carry no data. -/
def plot_clusters (pca_df : DataFrame) (preds : List ℤ) : DataFrame :=
  dfSetColumn pca_df "clusters" preds

/-- segment.py line 20. -/
def OUTPUT_DIR : String := "data/final/"

/-- segment.py lines 21-26, TASK_OUTPUT: a prefect LocalResult whose location
template is the task name placeholder followed by .csv; formatting the
template for a task yields this location. Resolved input values appear nowhere
in the template. -/
def taskOutputLocation (taskName : String) : String := taskName ++ ".csv"

/-- The key under which a task run stores or finds its cached artifact: the
formatted location of TASK_OUTPUT. The resolvedInputs argument is the material
a content-based fingerprint would digest; the template ignores it. -/
def cacheKeyOf (taskName : String) (resolvedInputs : List String) : String :=
  taskOutputLocation taskName

/-- A prefect task node of the segmentation flow: its name and whether it was
declared with the caching artifact_task decorator (result set to TASK_OUTPUT)
rather than the plain task decorator. -/
structure TaskNode where
  name : String
  isArtifactTask : Bool
deriving DecidableEq

/-- The nine tasks of the flow declared in segment(), lines 142-188, in
declaration order; only reduce_dimension and insert_clusters_to_df carry the
artifact_task decorator. -/
def pipeline : List TaskNode :=
  [⟨"reduce_dimension", true⟩,
   ⟨"get_3d_projection", false⟩,
   ⟨"create_3d_plot", false⟩,
   ⟨"get_best_k_cluster", false⟩,
   ⟨"get_clusters_model", false⟩,
   ⟨"save_model", false⟩,
   ⟨"predict", false⟩,
   ⟨"insert_clusters_to_df", true⟩,
   ⟨"plot_clusters", false⟩]

/-- Modelled from the spec: helper.artifact_task (imported on line 16, its
definition not under src) stores a task result in the artifact store and
reuses the stored entry when one exists for the key; a task hits the cache
exactly when it is an artifact task and the store holds its key. -/
def cacheHit (store : List String) (n : TaskNode) : Bool :=
  n.isArtifactTask && store.contains (cacheKeyOf n.name [])

/-- The store contents after one run against the given store: every artifact
task that missed writes its entry. -/
def storeAfterRun (store : List String) : List String :=
  store ++ (pipeline.filter (fun n => !cacheHit store n && n.isArtifactTask)).map
    (fun n => cacheKeyOf n.name [])

/-- The names of the tasks that recompute in a run against the given store. -/
def recomputedNodes (store : List String) : List String :=
  (pipeline.filter (fun n => !cacheHit store n)).map TaskNode.name

/-- A small reduced frame carrying the configured component names. -/
def dfEx : DataFrame :=
  ⟨["col1", "col2", "col3"], [[0, 0, 0], [10, 0, 0], [0, 10, 0], [1, 1, 0]]⟩

/-- A two-row, two-column reduced frame. -/
def df2 : DataFrame := ⟨["col1", "col2"], [[0, 0], [10, 0]]⟩

/-- A frame with one row and three columns. -/
def dfOneRow : DataFrame := ⟨["c1", "c2", "c3"], [[1, 2, 3]]⟩

/-- A KMeans fit stub returning no centers; the error-path claims never
inspect it. -/
def kfitEx : DataFrame → Nat → List Row := fun _ _ => []

/-- A KMeans fit for df2 at k equal to 2: one fitted center on each of the two
well-separated rows. -/
def kfit2 : DataFrame → Nat → List Row := fun _ _ => [[0, 0], [10, 0]]

/-- The elbow computation on a linear score curve: the score grows linearly in
k, so the spec-modelled knee locator reports no elbow. -/
def efLin : DataFrame → Option Nat := fun _ => locateElbowSpec [(2, 10), (3, 20), (4, 30)]

/-- A fitted spectral model: no centers, no predict attribute. -/
def mSpecEx : ClusterModel := ⟨Algorithm.spectral, 2, []⟩

/-- The KMeans model that get_clusters_model kfit2 df2 produces at k equal
to 2. -/
def mKEx : ClusterModel := ⟨Algorithm.kmeans, 2, [[0, 0], [10, 0]]⟩

/-- A truncating stand-in for the external PCA projection: keeps the first n
entries of each row, padded with zeros; it satisfies the PCA shape contract. -/
def truncPca : Nat → List Row → List Row :=
  fun n rows => rows.map (fun r => r.take n ++ List.replicate (n - r.length) 0)

/-- The reduced frame that reduce_dimension truncPca dfEx 3 produces. -/
def dfRedEx : DataFrame := ⟨["col1", "col2", "col3"], dfEx.rows⟩

/-- The first-minimum index lies inside a nonempty list. -/
theorem argminIdx_lt : ∀ l : List ℤ, l ≠ [] → argminIdx l < l.length
  | [_], _ => by simp [argminIdx]
  | a :: b :: t, _ => by
    have ih := argminIdx_lt (b :: t) (by simp)
    by_cases hc : (b :: t).getD (argminIdx (b :: t)) 0 < a
    · simp only [argminIdx, if_pos hc, List.length_cons]
      simp only [List.length_cons] at ih
      omega
    · simp only [argminIdx, if_neg hc, List.length_cons]
      omega

/-- The value at the first-minimum index is no larger than any entry. -/
theorem argminIdx_min : ∀ (l : List ℤ) (j : Nat), j < l.length →
    l.getD (argminIdx l) 0 ≤ l.getD j 0
  | [x], 0, _ => by simp [argminIdx]
  | [_], j + 1, h => by simp at h
  | a :: b :: t, j, h => by
    have ihm := fun i hi => argminIdx_min (b :: t) i hi
    by_cases hc : (b :: t).getD (argminIdx (b :: t)) 0 < a
    · cases j with
      | zero =>
        simp only [argminIdx, if_pos hc, List.getD_cons_succ, List.getD_cons_zero]
        exact le_of_lt hc
      | succ i =>
        simp only [argminIdx, if_pos hc, List.getD_cons_succ]
        exact ihm i (by simp only [List.length_cons] at h ⊢; omega)
    · cases j with
      | zero =>
        simp only [argminIdx, if_neg hc, List.getD_cons_zero]
        exact le_rfl
      | succ i =>
        simp only [argminIdx, if_neg hc, List.getD_cons_zero, List.getD_cons_succ]
        have h1 : a ≤ (b :: t).getD (argminIdx (b :: t)) 0 := le_of_not_lt hc
        have h2 := ihm i (by simp only [List.length_cons] at h ⊢; omega)
        exact le_trans h1 h2

/-- Mapping commutes with getD inside the list bounds. -/
theorem getD_map_lt (f : Row → ℤ) : ∀ (l : List Row) (i : Nat), i < l.length →
    (l.map f).getD i 0 = f (l.getD i [])
  | _ :: _, 0, _ => by simp
  | _ :: t, i + 1, h => by
    simp only [List.map_cons, List.getD_cons_succ]
    exact getD_map_lt f t i (by simp only [List.length_cons] at h; omega)
  | [], i, h => by simp at h

/-- The nearest-center index lies inside a nonempty center list. -/
theorem nearestCenterIdx_lt (centers : List Row) (r : Row) (h : centers ≠ []) :
    nearestCenterIdx centers r < centers.length := by
  have hm : centers.map (fun c => sqDist r c) ≠ [] := by
    cases centers with
    | nil => exact absurd rfl h
    | cons c t => simp
  have := argminIdx_lt (centers.map (fun c => sqDist r c)) hm
  simpa [nearestCenterIdx] using this

/-- The nearest-center index really minimises the distance to the row. -/
theorem nearestCenterIdx_isNearest (centers : List Row) (r : Row) (h : centers ≠ []) :
    isNearest centers r (nearestCenterIdx centers r) := by
  have hlt := nearestCenterIdx_lt centers r h
  refine ⟨hlt, fun j hj => ?_⟩
  have hmin := argminIdx_min (centers.map (fun c => sqDist r c)) j (by simpa using hj)
  have e1 := getD_map_lt (fun c => sqDist r c) centers (nearestCenterIdx centers r) hlt
  have e2 := getD_map_lt (fun c => sqDist r c) centers j hj
  unfold nearestCenterIdx at e1 hmin ⊢
  rw [e1, e2] at hmin
  exact hmin

/-- The only errors eval itself can produce are NameErrors for unbound
identifiers. -/
theorem evalIdent_error (s : String) (e : PyError) (h : evalIdent s = .error e) :
    e = .nameError s := by
  unfold evalIdent at h
  split at h
  · exact absurd h (by simp)
  · split at h
    · exact absurd h (by simp)
    · split at h
      · exact absurd h (by simp)
      · split at h
        · exact absurd h (by simp)
        · simpa using (Except.error.inj h).symm

/-- C3 counterexample: on a dataset whose score curve is linear in k (no knee
anywhere), the selection task returns ok none, a silently missing k, instead
of failing with NoElbowFound. -/
theorem claim3_counterexample :
    get_best_k_cluster efLin dfEx "KMeans" = .ok none ∧
    get_best_k_cluster efLin dfEx "KMeans" ≠ .error PyError.noElbowFound := by
  refine ⟨by decide, by decide⟩

/-- C3 as amended: get_best_k_cluster returns the elbow value of the library
unchanged and never raises NoElbowFound; when the library finds no knee it
silently returns none as the selected k. -/
theorem claim3_amended (ef : DataFrame → Option Nat) (df : DataFrame) (alg : String) :
    get_best_k_cluster ef df alg ≠ .error PyError.noElbowFound ∧
    (∀ a, evalIdent alg = .ok (.clusterCls a) → ef df = none →
      get_best_k_cluster ef df alg = .ok none) := by
  constructor
  · unfold get_best_k_cluster
    cases he : evalIdent alg with
    | error e =>
      have := evalIdent_error alg e he
      subst this
      simp
    | ok v =>
      cases v with
      | clusterCls a => simp
      | otherValue s => simp
  · intro a ha hn
    simp [get_best_k_cluster, ha, hn]

/-- C3 witness: on the linear score curve the task silently yields none. -/
theorem claim3_witness :
    get_best_k_cluster efLin dfEx "KMeans" ≠ .error PyError.noElbowFound ∧
    get_best_k_cluster efLin dfEx "KMeans" = .ok none :=
  ⟨(claim3_amended efLin dfEx "KMeans").1,
   (claim3_amended efLin dfEx "KMeans").2 Algorithm.kmeans (by decide) (by decide)⟩

/-- C4 counterexample: predict on a fitted spectral model fails with
AttributeError instead of falling back to nearest-center assignment. -/
theorem claim4_counterexample :
    predict mSpecEx dfEx = .error (PyError.attributeError "predict") := by
  decide

/-- C4 as amended: predict delegates to the native predict of the fitted
model. For a KMeans model it assigns every row its nearest fitted center; for
agglomerative and spectral models, which have no predict attribute, it fails
with AttributeError, and no nearest-center fallback exists. -/
theorem claim4_amended (m : ClusterModel) (df : DataFrame) :
    (m.alg = Algorithm.kmeans → m.centers ≠ [] →
      predict m df = .ok (df.rows.map (nearestCenterIdx m.centers)) ∧
      ∀ r ∈ df.rows, isNearest m.centers r (nearestCenterIdx m.centers r)) ∧
    (m.alg ≠ Algorithm.kmeans → predict m df = .error (.attributeError "predict")) := by
  constructor
  · intro halg hc
    constructor
    · simp [predict, halg]
    · intro r _
      exact nearestCenterIdx_isNearest m.centers r hc
  · intro halg
    unfold predict
    cases hm : m.alg with
    | kmeans => exact absurd hm halg
    | agglomerative => rfl
    | spectral => rfl

/-- C4 witness: on the concrete KMeans model fitted on df2, predict assigns
every row a distance-minimising center index. -/
theorem claim4_witness :
    predict mKEx df2 = .ok (df2.rows.map (nearestCenterIdx mKEx.centers)) ∧
    ∀ r ∈ df2.rows, isNearest mKEx.centers r (nearestCenterIdx mKEx.centers r) :=
  (claim4_amended mKEx df2).1 rfl (by decide)

/-- C2 counterexample: two runs of the reduce_dimension node whose resolved
inputs differ (n_components 2 against 3) share one and the same cache key, so
the key is no content-based fingerprint of the inputs. -/
theorem claim2_counterexample :
    cacheKeyOf "reduce_dimension" ["n_components=2"] =
      cacheKeyOf "reduce_dimension" ["n_components=3"] ∧
    (["n_components=2"] : List String) ≠ ["n_components=3"] := by
  constructor
  · rfl
  · decide

/-- C2 as amended: the cache key of every node is the task name alone, the
formatted TASK_OUTPUT location; it does not depend on the resolved input
values at all, so changing an upstream parameter leaves every key unchanged. -/
theorem claim2_amended (t : String) (ins ins' : List String) :
    cacheKeyOf t ins = cacheKeyOf t ins' ∧ cacheKeyOf t ins = t ++ ".csv" :=
  ⟨rfl, rfl⟩

/-- C9 counterexample: on a second run against the store the first run filled,
the cluster-count selection node (like every node not declared with
artifact_task) recomputes, so not every node short-circuits into the cache. -/
theorem claim9_counterexample :
    "get_best_k_cluster" ∈ recomputedNodes (storeAfterRun []) ∧
    recomputedNodes (storeAfterRun []) ≠ [] := by
  constructor
  · decide
  · decide

/-- C9 as amended: re-running with no parameter changes reuses the cache only
for the two artifact tasks, reduce_dimension and insert_clusters_to_df; the
seven other nodes recompute on every run. -/
theorem claim9_amended :
    recomputedNodes (storeAfterRun []) =
      ["get_3d_projection", "create_3d_plot", "get_best_k_cluster",
       "get_clusters_model", "save_model", "predict", "plot_clusters"] ∧
    (pipeline.filter (cacheHit (storeAfterRun []))).map TaskNode.name =
      ["reduce_dimension", "insert_clusters_to_df"] := by
  constructor
  · decide
  · decide

/-- Each of the three imported class names resolves to its constructor. -/
theorem evalIdent_className (a : Algorithm) :
    evalIdent (className a) = .ok (.clusterCls a) := by
  cases a <;> decide

/-- C5 counterexample: at k equal to 0 the fit fails with the ValueError the
library raises, not with InvalidParameter; no InvalidParameter error exists in
the code. -/
theorem claim5_counterexample :
    get_clusters_model kfitEx df2 "KMeans" 0 = .error (PyError.valueError "n_clusters") ∧
    get_clusters_model kfitEx df2 "KMeans" 0 ≠ .error PyError.invalidParameter := by
  refine ⟨by decide, by decide⟩

/-- C5 as amended: get_clusters_model performs no validation of its own; for k
below 1 or above the row count the underlying library raises ValueError, and
for k inside the range together with one of the three imported class names it
fits a model whose n_clusters is exactly k. -/
theorem claim5_amended (kfit : DataFrame → Nat → List Row) (df : DataFrame)
    (k : Int) (a : Algorithm) :
    ((k < 1 ∨ (df.rows.length : Int) < k) →
      ∃ msg, get_clusters_model kfit df (className a) k = .error (.valueError msg)) ∧
    (1 ≤ k → k ≤ (df.rows.length : Int) →
      ∃ m, get_clusters_model kfit df (className a) k = .ok m ∧
        (m.nClusters : Int) = k) := by
  have he := evalIdent_className a
  constructor
  · intro hbad
    by_cases h1 : k < 1
    · exact ⟨"n_clusters", by simp [get_clusters_model, he, fitCluster, h1]⟩
    · have h2 : (df.rows.length : Int) < k := by
        rcases hbad with h | h
        · exact absurd h h1
        · exact h
      exact ⟨"n_samples", by simp [get_clusters_model, he, fitCluster, h1, h2]⟩
  · intro hk1 hk2
    have h1 : ¬ k < 1 := by omega
    have h2 : ¬ (df.rows.length : Int) < k := by omega
    cases a with
    | kmeans =>
      refine ⟨⟨.kmeans, k.toNat, kfit df k.toNat⟩, ?_, ?_⟩
      · simp [get_clusters_model, he, fitCluster, h1, h2]
      · simp only []
        omega
    | agglomerative =>
      refine ⟨⟨.agglomerative, k.toNat, []⟩, ?_, ?_⟩
      · simp [get_clusters_model, he, fitCluster, h1, h2]
      · simp only []
        omega
    | spectral =>
      refine ⟨⟨.spectral, k.toNat, []⟩, ?_, ?_⟩
      · simp [get_clusters_model, he, fitCluster, h1, h2]
      · simp only []
        omega

/-- C5 witness: at k equal to 0 the fit errors, and at k equal to 2 on the
two-row frame it yields a model with n_clusters exactly 2. -/
theorem claim5_witness :
    (∃ msg, get_clusters_model kfitEx df2 (className Algorithm.kmeans) 0 =
      .error (PyError.valueError msg)) ∧
    (∃ m, get_clusters_model kfitEx df2 (className Algorithm.kmeans) 2 = .ok m ∧
      (m.nClusters : Int) = 2) :=
  ⟨(claim5_amended kfitEx df2 0 Algorithm.kmeans).1 (Or.inl (by decide)),
   (claim5_amended kfitEx df2 2 Algorithm.kmeans).2 (by decide) (by decide)⟩

/-- C6 counterexample: a frame with one row and three numeric columns at
n_components 2 satisfies the claim hypothesis (2 at most the column count),
yet the reduction fails, because the library rejects any n_components above
min(n_samples, n_features). -/
theorem claim6_counterexample :
    2 ≤ dfOneRow.columns.length ∧
    reduce_dimension truncPca dfOneRow 2 ["a", "b"] =
      .error (PyError.valueError "n_components") := by
  refine ⟨by decide, by decide⟩

/-- C6 as amended: when n is at most min(row count, column count) of D and the
configured name list has length n, the reduction returns a frame with exactly
the row count of D many rows and exactly the n configured columns, its rows
being the library projection of the rows of D in order. -/
theorem claim6_amended (pcaT : Nat → List Row → List Row) (df : DataFrame)
    (n : Nat) (names : List String)
    (h1 : n ≤ min df.rows.length df.columns.length)
    (h2 : names.length = n)
    (h3 : (pcaT n df.rows).length = df.rows.length) :
    ∃ out, reduce_dimension pcaT df n names = .ok out ∧
      out.rows.length = df.rows.length ∧ out.columns = names ∧
      out.columns.length = n ∧ out.rows = pcaT n df.rows := by
  refine ⟨⟨names, pcaT n df.rows⟩, ?_, h3, rfl, h2, rfl⟩
  simp [reduce_dimension, h1, h2]

/-- C6 witness: reducing the four-row frame to two components with two names
succeeds with four rows and two columns. -/
theorem claim6_witness :
    ∃ out, reduce_dimension truncPca dfEx 2 ["a", "b"] = .ok out ∧
      out.rows.length = dfEx.rows.length ∧ out.columns = ["a", "b"] ∧
      out.columns.length = 2 ∧ out.rows = truncPca 2 dfEx.rows :=
  claim6_amended truncPca dfEx 2 ["a", "b"] (by decide) (by decide) (by decide)

/-- Inverting a successful KMeans fit: the model is the one fitCluster built
and k lies inside the valid range. -/
theorem get_clusters_model_kmeans_inv (kfit : DataFrame → Nat → List Row)
    (df : DataFrame) (k : Int) (m : ClusterModel)
    (hm : get_clusters_model kfit df "KMeans" k = .ok m) :
    m = ⟨Algorithm.kmeans, k.toNat, kfit df k.toNat⟩ ∧
    1 ≤ k ∧ k ≤ (df.rows.length : Int) := by
  have he : evalIdent "KMeans" = .ok (.clusterCls .kmeans) := by decide
  simp only [get_clusters_model, he] at hm
  unfold fitCluster at hm
  split at hm
  · exact absurd hm (by simp)
  · split at hm
    · exact absurd hm (by simp)
    · rename_i h1 h2
      exact ⟨(Except.ok.inj hm).symm, by omega, by omega⟩

/-- C7 counterexample: a model fitted with the agglomerative variant at a
valid k yields no labeling at all on the fit data: predict fails with
AttributeError, so the round-trip property fails for models the fit step
produces. -/
theorem claim7_counterexample :
    get_clusters_model kfitEx df2 "AgglomerativeClustering" 2 =
      .ok ⟨Algorithm.agglomerative, 2, []⟩ ∧
    predict ⟨Algorithm.agglomerative, 2, []⟩ df2 =
      .error (PyError.attributeError "predict") := by
  refine ⟨by decide, by decide⟩

/-- C7 as amended: for a KMeans model fitted on the data (the only algorithm
whose fitted model has predict), with the library guarantee that the fit
produced k centers each owning at least one training row, predicting on the
fit data yields a labeling whose labels all lie below k and whose distinct
label count is exactly k. -/
theorem claim7_amended (kfit : DataFrame → Nat → List Row) (df : DataFrame)
    (k : Int) (m : ClusterModel)
    (hm : get_clusters_model kfit df "KMeans" k = .ok m)
    (hlen : m.centers.length = m.nClusters)
    (hsur : ∀ j, j < m.nClusters → ∃ r ∈ df.rows, nearestCenterIdx m.centers r = j) :
    ∃ labels, predict m df = .ok labels ∧
      (∀ l ∈ labels, l < m.nClusters) ∧ labels.toFinset.card = m.nClusters := by
  obtain ⟨hmeq, hk1, hk2⟩ := get_clusters_model_kmeans_inv kfit df k m hm
  have halg : m.alg = Algorithm.kmeans := by rw [hmeq]
  have hkpos : 1 ≤ m.nClusters := by
    rw [hmeq]
    simp only []
    omega
  have hcne : m.centers ≠ [] := by
    intro hnil
    rw [hnil] at hlen
    simp only [List.length_nil] at hlen
    omega
  refine ⟨df.rows.map (nearestCenterIdx m.centers), ?_, ?_, ?_⟩
  · simp [predict, halg]
  · intro l hl
    obtain ⟨r, hr, hre⟩ := List.mem_map.mp hl
    rw [← hre, ← hlen]
    exact nearestCenterIdx_lt m.centers r hcne
  · have hset : (df.rows.map (nearestCenterIdx m.centers)).toFinset =
        Finset.range m.nClusters := by
      ext j
      simp only [List.mem_toFinset, Finset.mem_range, List.mem_map]
      constructor
      · rintro ⟨r, hr, hre⟩
        rw [← hre, ← hlen]
        exact nearestCenterIdx_lt m.centers r hcne
      · intro hj
        exact hsur j hj
    rw [hset, Finset.card_range]

/-- C7 witness: the KMeans model fitted on the two well-separated rows of df2
at k equal to 2 labels them with exactly the two labels 0 and 1. -/
theorem claim7_witness :
    ∃ labels, predict mKEx df2 = .ok labels ∧
      (∀ l ∈ labels, l < mKEx.nClusters) ∧ labels.toFinset.card = mKEx.nClusters :=
  claim7_amended kfit2 df2 2 mKEx (by decide) (by decide) (by decide)

/-- C8 counterexample: plot_clusters, which is not the final label-assignment
merge, changes the column set of the reduced frame produced by the earlier
reduce stage. -/
theorem claim8_counterexample :
    (plot_clusters dfEx [0, 1, 0, 1]).columns ≠ dfEx.columns := by
  decide

/-- C8 as amended: besides the final merge insert_clusters_to_df, one more
operation extends the column set of an earlier tabular value: plot_clusters
appends a clusters column to the reduced frame in place. -/
theorem claim8_amended (df : DataFrame) (preds : List ℤ)
    (h : "clusters" ∉ df.columns) :
    (plot_clusters df preds).columns = df.columns ++ ["clusters"] ∧
    (insert_clusters_to_df df preds).columns = df.columns ++ ["clusters"] := by
  constructor <;> simp [plot_clusters, insert_clusters_to_df, dfSetColumn, h]

/-- C8 witness: on the two-column frame both operations append the clusters
column. -/
theorem claim8_witness :
    (plot_clusters df2 [0, 1]).columns = df2.columns ++ ["clusters"] ∧
    (insert_clusters_to_df df2 [0, 1]).columns = df2.columns ++ ["clusters"] :=
  claim8_amended df2 [0, 1] (by decide)

/-- The 3-axis projection succeeds exactly when the three hard-coded names are
among the columns of the frame. -/
theorem proj_ok_iff (df : DataFrame) :
    (∃ p, get_3d_projection df = .ok p) ↔
    ("col1" ∈ df.columns ∧ "col2" ∈ df.columns ∧ "col3" ∈ df.columns) := by
  by_cases h1 : "col1" ∈ df.columns <;>
    by_cases h2 : "col2" ∈ df.columns <;>
      by_cases h3 : "col3" ∈ df.columns <;>
        simp [get_3d_projection, dfGetColumn, h1, h2, h3]

/-- C10: for every frame the reduction step produced from the configured name
list, the 3-axis projection succeeds exactly when that list contains the
names col1, col2 and col3; a configured list omitting any of them makes the
projection step fail. -/
theorem claim10_projection_columns (pcaT : Nat → List Row → List Row)
    (df : DataFrame) (n : Nat) (names : List String) (out : DataFrame)
    (hred : reduce_dimension pcaT df n names = .ok out) :
    (∃ p, get_3d_projection out = .ok p) ↔
    ("col1" ∈ names ∧ "col2" ∈ names ∧ "col3" ∈ names) := by
  have hcols : out.columns = names := by
    unfold reduce_dimension at hred
    split at hred
    · split at hred
      · rw [← Except.ok.inj hred]
      · exact absurd hred (by simp)
    · exact absurd hred (by simp)
  rw [← hcols]
  exact proj_ok_iff out

/-- C10 witness: with the configured names col1, col2 and col3 the reduction
output projects successfully. -/
theorem claim10_witness :
    (∃ p, get_3d_projection dfRedEx = .ok p) ↔
    ("col1" ∈ ["col1", "col2", "col3"] ∧ "col2" ∈ ["col1", "col2", "col3"] ∧
     "col3" ∈ ["col1", "col2", "col3"]) :=
  claim10_projection_columns truncPca dfEx 3 ["col1", "col2", "col3"] dfRedEx (by decide)

end Segment
